import Mathlib

/-!
Verification development for the blockoli embedding storage and retrieval
engine.  The definitions below are a shallow embedding of the Rust sources:

  * `src/vector_store/sqlite.rs`   — project tables, insert and query code
  * `src/vector_store/vector_store.rs` — the `VectorStore` facade
  * `src/embeddings/encoder.rs`    — embedding generation and nearest search

The SQLite database is modelled as an association list from table name to a
list of rows; each row holds the TEXT column values exactly as the INSERT
statement in `SQLite::insert_blocks` writes them (the optional fields are
stored as their `serde_json` encodings).  The embedding model, which is an
external capability (`MODEL.embed`), is a parameter of the definitions that
call it.  Rust panics (from `panic!` and from `unwrap()`) are made visible
as explicit error values, distinguished from the `Result` errors the code
returns: the deliberate project-name rejection keeps its own constructor,
every other panic is `Err.panicked`.
-/

deriving instance DecidableEq for Except

namespace Blockoli

/-- Failure modes of the engine, following the shallow embedding convention:
`invalidProjectName` is the deliberate `panic!` inside
`SQLite::validate_project_name`; `storageFailure` is a `rusqlite` error
(surfaced through `Result`); `embeddingFailure` is an error returned by the
external embedding capability; `emptyIndex` is the typed error named by the
specification for searches over zero vectors (the code never constructs
it); `panicked` is any other Rust panic, e.g. `unwrap()` on `None` or a
failed `try_into` conversion. -/
inductive Err where
  | invalidProjectName : Err
  | storageFailure : String → Err
  | embeddingFailure : String → Err
  | emptyIndex : Err
  | panicked : String → Err
  deriving Repr, DecidableEq

/-- True exactly when `Err` is the `embeddingFailure` constructor. -/
def Err.isEmbeddingFailure : Err → Bool
  | .embeddingFailure _ => true
  | _ => false

/-- Model of Rust `char::is_alphanumeric` (Unicode `Alphabetic` or numeric
general category), restricted to code points below `0x100`; every input
considered in this development lies in that range.  In `0x80`–`0xFF` the
alphanumeric code points are `U+00AA`, `U+00B5`, `U+00BA`, the letter ranges
`U+00C0`–`U+00D6`, `U+00D8`–`U+00F6`, `U+00F8`–`U+00FF`, and the numeric
characters `U+00B2`, `U+00B3`, `U+00B9`, `U+00BC`–`U+00BE`. -/
def rustCharIsAlphanumeric (c : Char) : Bool :=
  let n := c.toNat
  (0x41 ≤ n && n ≤ 0x5A) || (0x61 ≤ n && n ≤ 0x7A) || (0x30 ≤ n && n ≤ 0x39) ||
  n == 0xAA || n == 0xB5 || n == 0xBA ||
  (0xC0 ≤ n && n ≤ 0xD6) || (0xD8 ≤ n && n ≤ 0xF6) || (0xF8 ≤ n && n ≤ 0xFF) ||
  n == 0xB2 || n == 0xB3 || n == 0xB9 || (0xBC ≤ n && n ≤ 0xBE)

/-- `SQLite::validate_project_name`: panics (here: `Err.invalidProjectName`)
unless every character of the name satisfies
`c.is_alphanumeric() || c == '_'`.  Note the `all` of an empty character
sequence is `true`, as in Rust, so the empty name passes. -/
def validateProjectName (project_name : String) : Except Err Unit :=
  if project_name.data.all (fun c => rustCharIsAlphanumeric c || c == '_') then
    Except.ok ()
  else
    Except.error Err.invalidProjectName

/-- One escaped character of a `serde_json` string encoding. -/
def jsonEscapeChar (c : Char) : String :=
  if c = '"' then "\\\""
  else if c = '\\' then "\\\\"
  else if c = (Char.ofNat 10) then "\\n"
  else if c = (Char.ofNat 13) then "\\r"
  else if c = (Char.ofNat 9) then "\\t"
  else if c.toNat < 0x20 then "\\u00" ++ (Nat.toDigits 16 c.toNat).asString
  else String.singleton c

/-- `serde_json::to_string` of a Rust `String`. -/
def serdeJsonString (s : String) : String :=
  "\"" ++ String.join (s.data.map jsonEscapeChar) ++ "\""

/-- `serde_json::to_string` of an `Option<String>`: `None` is stored as the
four-character text `null`, `Some(s)` as the quoted JSON string. -/
def serdeJsonOptionString : Option String → String
  | none => "null"
  | some s => serdeJsonString s

/-- Inverse of `jsonEscapeChar` on the body of a JSON string literal
(sufficient for the encodings produced by `serdeJsonString`). -/
def jsonUnescape : List Char → Option (List Char)
  | [] => some []
  | '\\' :: '"' :: rest => (jsonUnescape rest).map (fun l => '"' :: l)
  | '\\' :: '\\' :: rest => (jsonUnescape rest).map (fun l => '\\' :: l)
  | '\\' :: 'n' :: rest => (jsonUnescape rest).map (fun l => (Char.ofNat 10) :: l)
  | '\\' :: 'r' :: rest => (jsonUnescape rest).map (fun l => (Char.ofNat 13) :: l)
  | '\\' :: 't' :: rest => (jsonUnescape rest).map (fun l => (Char.ofNat 9) :: l)
  | '\\' :: _ => none
  | '"' :: _ => none
  | c :: rest => (jsonUnescape rest).map (fun l => c :: l)

/-- `serde_json::from_str::<Option<String>>`: `null` decodes to `None`, a
quoted string to `Some`; anything else is a parse error (`none` here). -/
def jsonDecodeOptionString (s : String) : Option (Option String) :=
  if s = "null" then some none
  else
    match s.data with
    | '"' :: rest =>
      match rest.reverse with
      | '"' :: mid => (jsonUnescape mid.reverse).map (fun l => some ⟨l⟩)
      | _ => none
    | _ => none

/-- `asterisk::block::Block`, the unit produced by the external indexer.
The `block_type` field is an external enum (`asterisk::block::BlockType`);
the core only ever serializes it on insert and deserializes it on read, so
it is carried here as its `serde_json` text (e.g. `"Function"` with the
surrounding JSON quotes). -/
structure Block where
  node_key : String
  block_type : String
  content : String
  class_name : Option String
  function_name : Option String
  outgoing_calls : List String
  deriving Repr, DecidableEq

/-- `blocks.rs`: a code block paired with its vector embedding. -/
structure EmbeddedBlock where
  block : Block
  vectors : List ℚ
  deriving Repr, DecidableEq

/-- One row of a project table, with the TEXT columns exactly as
`SQLite::insert_blocks` writes them.  The `SELECT *` column order is:
0 = `id`, 1 = `node_key`, 2 = `block_type`, 3 = `content`, 4 = `class_name`,
5 = `function_name`, 6 = `outgoing_calls`, 7 = `vectors`.  The `vectors`
and `outgoing_calls` columns are stored as the JSON text of the list; they
are carried here as the parsed list, since they never appear in a WHERE
clause, every reader parses them back immediately, and the JSON round trip
is exact.  The `class_name` and `function_name` columns are kept as their
raw TEXT (the `serde_json` encodings of `Option<String>`) because the SQL
queries compare these column values directly. -/
structure Row where
  node_key : String
  block_type : String
  content : String
  class_name : String
  function_name : String
  outgoing_calls : List String
  vectors : List ℚ
  deriving Repr, DecidableEq

/-- The row `SQLite::insert_blocks` writes for one `EmbeddedBlock`:
`content` and `node_key` are stored raw, `class_name` / `function_name` /
`outgoing_calls` as their `serde_json` encodings, `block_type` as the
serialized external enum (already carried in serialized form). -/
def rowOfBlock (b : EmbeddedBlock) : Row :=
  { node_key := b.block.node_key
    block_type := b.block.block_type
    content := b.block.content
    class_name := serdeJsonOptionString b.block.class_name
    function_name := serdeJsonOptionString b.block.function_name
    outgoing_calls := b.block.outgoing_calls
    vectors := b.vectors }

/-- The column names declared by `SQLite::create_table`. -/
def tableColumns : List String :=
  ["id", "node_key", "block_type", "content", "class_name",
   "function_name", "outgoing_calls", "vectors"]

/-- The database: an association list from table (project) name to rows. -/
abbrev DB := List (String × List Row)

/-- The rows of a table, `none` when the table does not exist. -/
def dbLookup (db : DB) (name : String) : Option (List Row) :=
  (List.find? (fun p => p.1 = name) db).map (fun p => p.2)

/-- Replace the rows of table `name` (used for the commit of an insert
transaction). -/
def dbSet (db : DB) (name : String) (rows : List Row) : DB :=
  List.map (fun p => if p.1 = name then (p.1, rows) else p) db

/-- The `query_map` closure shared by `get_all_function_blocks`,
`search_from_function_blocks` and `search_by_function_name`: `node_key`
from column 1, `block_type` from column 2 (deserialized; identity here
since the enum text is carried in serialized form), `content` from
column 3, `class_name` and `function_name` from columns 4 and 5 with
`serde_json::from_str(...).unwrap_or_default()` (an undecodable value
becomes `None`), `outgoing_calls` from column 6. -/
def blockOfRow (r : Row) : Block :=
  { node_key := r.node_key
    block_type := r.block_type
    content := r.content
    class_name := (jsonDecodeOptionString r.class_name).getD none
    function_name := (jsonDecodeOptionString r.function_name).getD none
    outgoing_calls := r.outgoing_calls }

/-- `SQLite::does_project_exist`: validates the name, then asks
`sqlite_master` (a parameterized query) whether a table of that name
exists. -/
def doesProjectExist (db : DB) (project_name : String) : Except Err Bool := do
  validateProjectName project_name
  pure (dbLookup db project_name).isSome

/-- `SQLite::create_table`: validates the name, then
`CREATE TABLE IF NOT EXISTS {name} (...)`.  The model assumes the
interpolated name forms a single valid SQL identifier, which holds for all
names this development evaluates it on. -/
def createTable (db : DB) (project_name : String) : Except Err DB := do
  validateProjectName project_name
  match dbLookup db project_name with
  | some _ => pure db
  | none => pure (db ++ [(project_name, [])])

/-- `SQLite::delete_project`: validates the name, then
`DROP TABLE IF EXISTS {name}` followed by `VACUUM` (space reclamation has
no observable effect on the modelled state). -/
def deleteProject (db : DB) (project_name : String) : Except Err DB := do
  validateProjectName project_name
  pure (db.filter (fun p => p.1 != project_name))

/-- `ProjectInfo` as serialized by `sqlite.rs`. -/
structure ProjectInfo where
  name : String
  total_code_blocks : Nat
  deriving Repr, DecidableEq

/-- `SQLite::get_project_info`: validates the name, then
`SELECT COUNT(*) FROM {name}`; the `if let Ok(..)` turns the failure on a
missing table into `None`. -/
def getProjectInfo (db : DB) (project_name : String) :
    Except Err (Option ProjectInfo) := do
  validateProjectName project_name
  match dbLookup db project_name with
  | none => pure none
  | some rows => pure (some ⟨project_name, rows.length⟩)

/-- Runs the per-row INSERT statements of the transaction inside
`SQLite::insert_blocks`, in order.  `fail i` abstracts a storage-engine
error raised by the `i`-th `execute` (I/O failure, constraint violation);
`none` means the statement succeeds.  The produced rows are the pending
writes of the open transaction. -/
def runInserts (fail : Nat → Option String) (i : Nat) :
    List EmbeddedBlock → Except Err (List Row)
  | [] => Except.ok []
  | b :: bs =>
    match fail i with
    | some msg => Except.error (Err.storageFailure msg)
    | none => (runInserts fail (i + 1) bs).map (fun rows => rowOfBlock b :: rows)

/-- `SQLite::insert_blocks`: validates the name, opens a transaction,
executes one INSERT per block (each `?`-propagated error drops the
transaction, which rolls the pending writes back), and commits at the end.
Returns the operation outcome together with the committed database state.
A missing table makes the first INSERT fail at prepare time. -/
def insertBlocks (fail : Nat → Option String) (db : DB) (project_name : String)
    (blocks : List EmbeddedBlock) : Except Err Unit × DB :=
  match validateProjectName project_name with
  | Except.error e => (Except.error e, db)
  | Except.ok () =>
    match dbLookup db project_name with
    | none => (Except.error (Err.storageFailure ("no such table: " ++ project_name)), db)
    | some rows =>
      match runInserts fail 0 blocks with
      | Except.error e => (Except.error e, db)
      | Except.ok pending => (Except.ok (), dbSet db project_name (rows ++ pending))

/-- `SQLite::get_all_function_blocks`:
`SELECT * FROM {name} WHERE function_name != ''`.  The comparison is on
the stored TEXT of the `function_name` column, i.e. on the `serde_json`
encoding written by `insert_blocks`. -/
def getAllFunctionBlocks (db : DB) (project_name : String) :
    Except Err (List Block) := do
  validateProjectName project_name
  match dbLookup db project_name with
  | none => Except.error (Err.storageFailure ("no such table: " ++ project_name))
  | some rows =>
    pure ((rows.filter (fun r => r.function_name != "")).map blockOfRow)

/-- `SQLite::search_from_function_blocks`:
`SELECT * FROM {name} WHERE function_name != '' AND code LIKE ?`.  The
table created by `create_table` has no column named `code` (the text
column is named `content`), so on every existing table the statement fails
to prepare with a "no such column" storage error; on a missing table it
fails with "no such table".  The row-matching part of the query is
unreachable. -/
def searchFromFunctionBlocks (db : DB) (project_name : String)
    (_search_code : String) : Except Err (List Block) := do
  validateProjectName project_name
  match dbLookup db project_name with
  | none => Except.error (Err.storageFailure ("no such table: " ++ project_name))
  | some _rows => Except.error (Err.storageFailure "no such column: code")

/-- `SQLite::search_by_function_name`:
`SELECT * FROM {name} WHERE function_name != '' AND function_name = ?`.
The parameter is the raw queried name, while the stored column text is a
`serde_json` encoding, so the equality is between the raw name and the
encoded value. -/
def searchByFunctionName (db : DB) (project_name : String)
    (function_name : String) : Except Err (List Block) := do
  validateProjectName project_name
  match dbLookup db project_name with
  | none => Except.error (Err.storageFailure ("no such table: " ++ project_name))
  | some rows =>
    pure ((rows.filter
      (fun r => r.function_name != "" && r.function_name == function_name)).map
        blockOfRow)

/-- `encoder.rs`: `VECTOR_SIZE`. -/
def VECTOR_SIZE : Nat := 384

/-- `encoder.rs` `Vector`: a point paired with the code text it came from.
Coordinates are modelled as rationals; the claims settled here are
order-theoretic and do not depend on floating-point rounding. -/
structure Vector where
  point : List ℚ
  code : String
  deriving Repr, DecidableEq

/-- `SQLite::get_code_vectors`: `SELECT * FROM {name}`, then for every row
the closure reads `row.get(2)` as the paired text — column 2 is the
`block_type` column, not the `content` column (which is column 3) — and
parses column 7 into a float vector; the subsequent
`try_into().unwrap()` to `[f32; VECTOR_SIZE]` panics when the parsed list
does not have exactly 384 entries. -/
def getCodeVectors (db : DB) (project_name : String) :
    Except Err (List Vector) := do
  validateProjectName project_name
  match dbLookup db project_name with
  | none => Except.error (Err.storageFailure ("no such table: " ++ project_name))
  | some rows =>
    rows.mapM (fun r =>
      if r.vectors.length = VECTOR_SIZE then
        Except.ok { point := r.vectors, code := r.block_type }
      else
        Except.error (Err.panicked "try_into to fixed-size array failed"))

/-- The external embedding capability (`MODEL.embed` of the `fastembed`
crate): a fallible batch map from texts to float vectors.  Definitions
that call the model take it as a parameter. -/
abbrev EmbedModel := List String → Except String (List (List ℚ))

/-- `Embeddings::generate_code_vector`: embeds a single-element batch,
indexes `output[0]` (a panic when the capability returns an empty batch)
and converts it with `try_into().unwrap()` (a panic when the vector length
is not `VECTOR_SIZE`). -/
def generateCodeVector (modelEmbed : EmbedModel) (code : String) :
    Except Err Vector :=
  match modelEmbed [code] with
  | Except.error e => Except.error (Err.embeddingFailure e)
  | Except.ok output =>
    match output with
    | [] => Except.error (Err.panicked "index out of bounds: output is empty")
    | v :: _ =>
      if v.length = VECTOR_SIZE then Except.ok { point := v, code := code }
      else Except.error (Err.panicked "try_into to fixed-size array failed")

/-- `Embeddings::generate_vector_set`: one capability call for the whole
batch; a capability error propagates through `?`; the results are zipped
with the input texts (the zip truncates to the shorter of the two lists)
and each vector is converted with `try_into().unwrap()`, which panics on a
vector whose length is not `VECTOR_SIZE`. -/
def generateVectorSet (modelEmbed : EmbedModel) (code_blocks : List String) :
    Except Err (List Vector) :=
  match modelEmbed code_blocks with
  | Except.error e => Except.error (Err.embeddingFailure e)
  | Except.ok output =>
    if (output.zip code_blocks).all (fun p => p.1.length == VECTOR_SIZE) then
      Except.ok ((output.zip code_blocks).map
        (fun p => { point := p.1, code := p.2 }))
    else
      Except.error (Err.panicked "try_into to fixed-size array failed")

/-- Modelled from the spec: squared Euclidean distance over the full
vector (§4.3 "exact nearest-neighbor search ... using squared Euclidean
distance").  The k-d tree itself lives in the external `kd_tree` crate and
is not part of this repository's sources. -/
def sqDist (p q : List ℚ) : ℚ :=
  (List.zipWith (fun a b => (a - b) * (a - b)) p q).sum

/-- Modelled from the spec: the "closer to the query" preorder on stored
points used to rank results. -/
def distLe (q : List ℚ) (a b : Vector) : Prop :=
  sqDist a.point q ≤ sqDist b.point q

instance (q : List ℚ) : DecidableRel (distLe q) :=
  fun a b => inferInstanceAs (Decidable (sqDist a.point q ≤ sqDist b.point q))

instance (q : List ℚ) : IsTotal Vector (distLe q) :=
  ⟨fun a b => le_total (sqDist a.point q) (sqDist b.point q)⟩

instance (q : List ℚ) : IsTrans Vector (distLe q) :=
  ⟨fun _ _ _ hab hbc => le_trans hab hbc⟩

/-- Modelled from the spec: the point set ranked by ascending distance to
the query, with one fixed deterministic tie-break (§4.3: ties are broken
in an implementation-defined but deterministic order, stable for a fixed
index instance and query). -/
def rankedByDistance (points : List Vector) (q : List ℚ) : List Vector :=
  List.insertionSort (distLe q) points

/-- Modelled from the spec: `nearest(query)` of the SpatialIndex — the
point minimizing distance to the query, `none` on an empty index (the
`kd_tree` crate returns `None` there, which the caller unwraps). -/
def nearestPoint (points : List Vector) (q : List ℚ) : Option Vector :=
  (rankedByDistance points q).head?

/-- Modelled from the spec: `k_nearest(query, k)` of the SpatialIndex —
the `min(k, index size)` closest points in ascending distance order. -/
def kNearestPoints (points : List Vector) (q : List ℚ) (k : Nat) : List Vector :=
  (rankedByDistance points q).take k

/-- `encoder.rs` `NearestVectors`: the serialized search result. -/
structure NearestVectors where
  nearest : String
  k_nearest : List String
  deriving Repr, DecidableEq

namespace Embeddings

/-- `Embeddings::search`: embeds the query (`generate_code_vector`),
builds a fresh index over `vector_set`, takes `nearest(..).unwrap()` — a
panic when the set is empty — and the `matches` nearest points (the
parameter is renamed `k` here because `matches` is reserved in Lean), and
returns their code texts. -/
def search (modelEmbed : EmbedModel) (vector_set : List Vector)
    (code : String) (k : Nat) : Except Err NearestVectors :=
  match generateCodeVector modelEmbed code with
  | Except.error e => Except.error e
  | Except.ok query =>
    match nearestPoint vector_set query.point with
    | none => Except.error (Err.panicked "called unwrap on a None value")
    | some n =>
      Except.ok
        { nearest := n.code
          k_nearest := (kNearestPoints vector_set query.point k).map
            Vector.code }

end Embeddings

namespace VectorStore

/-- `VectorStore::search`: loads the project's vectors with
`get_code_vectors` and runs `Embeddings::search` with `matches = 5`.  The
facade unwraps both results; the error value records which failure the
unwrap surfaces. -/
def search (modelEmbed : EmbedModel) (db : DB) (project_name : String)
    (search_code : String) : Except Err NearestVectors := do
  let code_vectors ← getCodeVectors db project_name
  Embeddings.search modelEmbed code_vectors search_code 5

end VectorStore

/-! Concrete fixtures used to evaluate the model on explicit inputs. -/

/-- A 384-entry vector, the dimension `fastembed` produces. -/
def zeroVec384 : List ℚ := List.replicate 384 0

/-- An embedded block whose `function_name` is present with value `foo`. -/
def fooBlock : EmbeddedBlock :=
  { block :=
      { node_key := "k1"
        block_type := "\"Function\""
        content := "fn foo() {}"
        class_name := none
        function_name := some "foo"
        outgoing_calls := [] }
    vectors := zeroVec384 }

/-- An embedded block whose `function_name` is absent. -/
def stmtBlock : EmbeddedBlock :=
  { block :=
      { node_key := "k2"
        block_type := "\"Statement\""
        content := "let x = 1;"
        class_name := none
        function_name := none
        outgoing_calls := [] }
    vectors := zeroVec384 }

/-- A database holding one empty project table named `demo`. -/
def demoDB : DB := [("demo", [])]

/-- A capability answering every batch with one 384-entry zero vector. -/
def embedZero : EmbedModel := fun _ => Except.ok [zeroVec384]

/-- A capability answering with one 384-entry vector per input text. -/
def embedZeroBatch : EmbedModel := fun ts => Except.ok (ts.map (fun _ => zeroVec384))

/-- A capability answering with one vector per text, each of length 1
(the wrong dimension). -/
def embedShort : EmbedModel := fun ts => Except.ok (ts.map (fun _ => ([0] : List ℚ)))

/-- A capability that always fails. -/
def embedFail : EmbedModel := fun _ => Except.error "model error"

/-- Two stored points at distance 1 and 0 from the all-zero query. -/
def twoPoints : List Vector := [⟨[1], "far"⟩, ⟨[0], "near"⟩]

/-! Helper lemmas. -/

theorem runInserts_ok_or_error (fail : Nat → Option String) (i : Nat)
    (blocks : List EmbeddedBlock) :
    runInserts fail i blocks = Except.ok (blocks.map rowOfBlock) ∨
    ∃ msg, runInserts fail i blocks = Except.error (Err.storageFailure msg) := by
  induction blocks generalizing i with
  | nil => exact Or.inl rfl
  | cons b bs ih =>
    cases hf : fail i with
    | some msg => exact Or.inr ⟨msg, by simp [runInserts, hf]⟩
    | none =>
      rcases ih (i + 1) with hok | ⟨msg, herr⟩
      · exact Or.inl (by simp [runInserts, hf, hok, Except.map])
      · exact Or.inr ⟨msg, by simp [runInserts, hf, herr, Except.map]⟩

theorem rankedByDistance_sorted (pts : List Vector) (q : List ℚ) :
    List.Sorted (distLe q) (rankedByDistance pts q) :=
  List.sorted_insertionSort (distLe q) pts

theorem rankedByDistance_perm (pts : List Vector) (q : List ℚ) :
    (rankedByDistance pts q).Perm pts :=
  List.perm_insertionSort (distLe q) pts

theorem nearestPoint_min (pts : List Vector) (q : List ℚ) (h : pts ≠ []) :
    ∃ p, nearestPoint pts q = some p ∧ p ∈ pts ∧
      ∀ p2 ∈ pts, sqDist p.point q ≤ sqDist p2.point q := by
  have hperm := rankedByDistance_perm pts q
  have hsorted := rankedByDistance_sorted pts q
  cases hr : rankedByDistance pts q with
  | nil =>
    rw [hr] at hperm
    exact absurd hperm.symm.eq_nil h
  | cons a t =>
    rw [hr] at hperm hsorted
    refine ⟨a, by simp [nearestPoint, hr], hperm.mem_iff.mp (List.mem_cons_self a t), ?_⟩
    intro p2 hp2
    rcases List.mem_cons.mp (hperm.mem_iff.mpr hp2) with h1 | h2
    · exact le_of_eq (by rw [h1])
    · exact List.rel_of_sorted_cons hsorted p2 h2

theorem kNearestPoints_sorted (pts : List Vector) (q : List ℚ) (k : Nat) :
    List.Sorted (distLe q) (kNearestPoints pts q k) :=
  List.Pairwise.sublist (List.take_sublist k (rankedByDistance pts q))
    (rankedByDistance_sorted pts q)

theorem kNearestPoints_length (pts : List Vector) (q : List ℚ) (k : Nat) :
    (kNearestPoints pts q k).length = min k pts.length := by
  unfold kNearestPoints
  rw [List.length_take, (rankedByDistance_perm pts q).length_eq]

theorem generateCodeVector_ok (modelEmbed : EmbedModel) (code : String)
    (v : List ℚ) (rest : List (List ℚ))
    (hembed : modelEmbed [code] = Except.ok (v :: rest))
    (hlen : v.length = VECTOR_SIZE) :
    generateCodeVector modelEmbed code = Except.ok ⟨v, code⟩ := by
  simp [generateCodeVector, hembed, hlen]

theorem Embeddings.search_ok (modelEmbed : EmbedModel) (pts : List Vector)
    (code : String) (k : Nat) (v : List ℚ) (rest : List (List ℚ)) (p : Vector)
    (hembed : modelEmbed [code] = Except.ok (v :: rest))
    (hlen : v.length = VECTOR_SIZE)
    (hnp : nearestPoint pts v = some p) :
    Embeddings.search modelEmbed pts code k =
      Except.ok ⟨p.code, (kNearestPoints pts v k).map Vector.code⟩ := by
  simp [Embeddings.search, generateCodeVector_ok modelEmbed code v rest hembed hlen, hnp]

theorem map_fst_zip_eq_take {α β : Type} :
    ∀ (l1 : List α) (l2 : List β), (l1.zip l2).map Prod.fst = l1.take l2.length := by
  intro l1
  induction l1 with
  | nil => intro l2; simp
  | cons a t ih =>
    intro l2
    cases l2 with
    | nil => simp
    | cons b u => simp [ih u]

theorem map_snd_zip_eq_take {α β : Type} :
    ∀ (l1 : List α) (l2 : List β), (l1.zip l2).map Prod.snd = l2.take l1.length := by
  intro l1
  induction l1 with
  | nil => intro l2; simp
  | cons a t ih =>
    intro l2
    cases l2 with
    | nil => simp
    | cons b u => simp [ih u]

theorem zeroVec384_length : zeroVec384.length = VECTOR_SIZE := by
  unfold zeroVec384 VECTOR_SIZE
  exact List.length_replicate 384 0

theorem zeroVec384_batch_check :
    (([zeroVec384, zeroVec384].zip ["a", "b"]).all
      (fun p => p.1.length == VECTOR_SIZE)) = true := by
  simp [zeroVec384_length]

/-! The claims. -/

set_option maxRecDepth 100000 in
/-- C1: the claim says `all_vectors` pairs every stored vector with the
record's content text.  The code (`SQLite::get_code_vectors`) reads
`row.get(2)` — the `block_type` column — as the paired text instead of
column 3 (`content`): after inserting a block with content `fn foo() {}`
and serialized block type `"Function"`, the returned vector is paired with
the block-type text, not with the content the vector was derived from. -/
theorem getCodeVectors_pairs_vector_with_block_type :
    getCodeVectors (insertBlocks (fun _ => none) demoDB "demo" [fooBlock]).2 "demo" =
      Except.ok [{ point := zeroVec384, code := "\"Function\"" }] ∧
    fooBlock.block.content = "fn foo() {}" ∧
    ("\"Function\"" : String) ≠ "fn foo() {}" := by
  refine ⟨?_, by decide, by decide⟩
  decide

set_option maxRecDepth 100000 in
/-- C2: the claim says `search_text` succeeds on a well-formed project and
returns the substring matches.  The SQL in
`SQLite::search_from_function_blocks` is
`... WHERE function_name != '' AND code LIKE ?`, but the table created by
`create_table` has no column named `code` (the text column is `content`),
so the statement fails to prepare and the operation returns a storage
error on every call — here on an empty `demo` project and on one that
holds a block whose content contains the needle. -/
theorem searchFromFunctionBlocks_always_storage_error :
    searchFromFunctionBlocks demoDB "demo" "foo" =
      Except.error (Err.storageFailure "no such column: code") ∧
    searchFromFunctionBlocks
        (insertBlocks (fun _ => none) demoDB "demo" [fooBlock]).2 "demo" "foo" =
      Except.error (Err.storageFailure "no such column: code") := by
  constructor
  · decide
  · decide

set_option maxRecDepth 100000 in
/-- C3: the claim says that after inserting a block whose `function_name`
is `foo`, `search_by_function_name(project, "foo")` returns that block.
`insert_blocks` stores `function_name` as its `serde_json` encoding (the
five-character text `"foo"`, quotes included), while the query compares
the column against the raw parameter `foo`, so the lookup finds nothing:
the insert succeeds and the search returns the empty list. -/
theorem searchByFunctionName_misses_inserted_block :
    (insertBlocks (fun _ => none) demoDB "demo" [fooBlock]).1 = Except.ok () ∧
    fooBlock.block.function_name = some "foo" ∧
    searchByFunctionName (insertBlocks (fun _ => none) demoDB "demo" [fooBlock]).2
        "demo" "foo" = Except.ok [] := by
  refine ⟨by decide, by decide, by decide⟩

set_option maxRecDepth 100000 in
/-- C4: the claim says `all_function_blocks` returns exactly the records
whose `function_name` is present and never confuses absence with an empty
string.  An absent `function_name` is stored as the four-character text
`null`, which the filter `function_name != ''` does not exclude: after
inserting a block with an absent `function_name`, `get_all_function_blocks`
returns that block. -/
theorem getAllFunctionBlocks_includes_absent_function_name :
    (insertBlocks (fun _ => none) demoDB "demo" [stmtBlock]).1 = Except.ok () ∧
    stmtBlock.block.function_name = none ∧
    getAllFunctionBlocks (insertBlocks (fun _ => none) demoDB "demo" [stmtBlock]).2
        "demo" = Except.ok [stmtBlock.block] := by
  refine ⟨by decide, by decide, by decide⟩

/-- C5 counterexample: the claim says every string that is not a non-empty
`[A-Za-z0-9_]` word — including the empty string and strings with
non-ASCII letters — makes every operation fail with `InvalidProjectName`
before storage access.  The validation accepts the empty string
(`all` of an empty sequence is true) and accepts `é` (a Unicode
alphanumeric, and Rust's `char::is_alphanumeric` is a Unicode check), so
`does_project_exist` runs its storage query and succeeds on both names. -/
theorem validateProjectName_accepts_empty_and_unicode :
    validateProjectName "" = Except.ok () ∧
    validateProjectName "é" = Except.ok () ∧
    doesProjectExist ([] : DB) "" = Except.ok false ∧
    doesProjectExist ([] : DB) "é" = Except.ok false := by
  refine ⟨by decide, by decide, by decide, by decide⟩

/-- C5 amended: every operation taking a project name validates it first,
and when the name contains a character that is neither Unicode-alphanumeric
nor an underscore the operation fails with the validation failure before
any storage access, leaving the database unchanged; names made only of
Unicode-alphanumeric or underscore characters — among them the empty
string and non-ASCII letters such as `é` — pass validation. -/
theorem invalidProjectName_short_circuits (project_name : String)
    (h : project_name.data.all (fun c => rustCharIsAlphanumeric c || c == '_') = false) :
    ∀ (db : DB) (fail : Nat → Option String) (blocks : List EmbeddedBlock)
      (needle fname code : String) (modelEmbed : EmbedModel),
    validateProjectName project_name = Except.error Err.invalidProjectName ∧
    doesProjectExist db project_name = Except.error Err.invalidProjectName ∧
    createTable db project_name = Except.error Err.invalidProjectName ∧
    deleteProject db project_name = Except.error Err.invalidProjectName ∧
    getProjectInfo db project_name = Except.error Err.invalidProjectName ∧
    insertBlocks fail db project_name blocks = (Except.error Err.invalidProjectName, db) ∧
    getAllFunctionBlocks db project_name = Except.error Err.invalidProjectName ∧
    searchFromFunctionBlocks db project_name needle = Except.error Err.invalidProjectName ∧
    searchByFunctionName db project_name fname = Except.error Err.invalidProjectName ∧
    getCodeVectors db project_name = Except.error Err.invalidProjectName ∧
    VectorStore.search modelEmbed db project_name code = Except.error Err.invalidProjectName := by
  intro db fail blocks needle fname code modelEmbed
  have hv : validateProjectName project_name = Except.error Err.invalidProjectName := by
    simp [validateProjectName, h]
  refine ⟨hv, ?_, ?_, ?_, ?_, ?_, ?_, ?_, ?_, ?_, ?_⟩
  · simp only [doesProjectExist, hv]; rfl
  · simp only [createTable, hv]; rfl
  · simp only [deleteProject, hv]; rfl
  · simp only [getProjectInfo, hv]; rfl
  · simp only [insertBlocks, hv]
  · simp only [getAllFunctionBlocks, hv]; rfl
  · simp only [searchFromFunctionBlocks, hv]; rfl
  · simp only [searchByFunctionName, hv]; rfl
  · simp only [getCodeVectors, hv]; rfl
  · simp only [VectorStore.search, getCodeVectors, hv]; rfl

/-- C5 witness: the amended theorem applied at the name `a b` (a space is
neither alphanumeric nor an underscore). -/
theorem invalidProjectName_short_circuits_witness :
    ("a b".data.all (fun c => rustCharIsAlphanumeric c || c == '_') = false) ∧
    (validateProjectName "a b" = Except.error Err.invalidProjectName ∧
     doesProjectExist ([] : DB) "a b" = Except.error Err.invalidProjectName ∧
     createTable ([] : DB) "a b" = Except.error Err.invalidProjectName ∧
     deleteProject ([] : DB) "a b" = Except.error Err.invalidProjectName ∧
     getProjectInfo ([] : DB) "a b" = Except.error Err.invalidProjectName ∧
     insertBlocks (fun _ => none) ([] : DB) "a b" [] =
       (Except.error Err.invalidProjectName, ([] : DB)) ∧
     getAllFunctionBlocks ([] : DB) "a b" = Except.error Err.invalidProjectName ∧
     searchFromFunctionBlocks ([] : DB) "a b" "x" = Except.error Err.invalidProjectName ∧
     searchByFunctionName ([] : DB) "a b" "x" = Except.error Err.invalidProjectName ∧
     getCodeVectors ([] : DB) "a b" = Except.error Err.invalidProjectName ∧
     VectorStore.search embedZero ([] : DB) "a b" "x" = Except.error Err.invalidProjectName) :=
  ⟨by decide, invalidProjectName_short_circuits "a b" (by decide) [] (fun _ => none) [] "x" "x" "x" embedZero⟩


set_option maxRecDepth 100000 in
/-- C6 counterexample: the claim says `find_similar` on an existing project
with zero stored blocks fails with a typed `EmptyIndex` error rather than
aborting.  On an empty `demo` table the code reaches
`kdtree.nearest(&query).unwrap()` with an empty index, whose `None` makes
the `unwrap` panic — no typed error, and in particular not `EmptyIndex`. -/
theorem find_similar_empty_project_panics :
    VectorStore.search embedZero demoDB "demo" "query" =
      Except.error (Err.panicked "called unwrap on a None value") ∧
    Err.panicked "called unwrap on a None value" ≠ Err.emptyIndex := by
  refine ⟨by decide, by decide⟩

/-- C6 amended: on every existing project with zero stored blocks,
`find_similar` (when the query embedding succeeds with a 384-entry vector)
fails by panicking on the `unwrap` of the empty index's `nearest` result —
an untyped crash, not a typed `EmptyIndex` error — while
`all_function_blocks` on the same project returns the empty sequence, not
an error. -/
theorem find_similar_empty_project_behavior
    (modelEmbed : EmbedModel) (db : DB) (name code : String)
    (v : List ℚ) (rest : List (List ℚ))
    (hval : validateProjectName name = Except.ok ())
    (htbl : dbLookup db name = some [])
    (hembed : modelEmbed [code] = Except.ok (v :: rest))
    (hlen : v.length = VECTOR_SIZE) :
    VectorStore.search modelEmbed db name code =
      Except.error (Err.panicked "called unwrap on a None value") ∧
    getAllFunctionBlocks db name = Except.ok [] := by
  have hcv : getCodeVectors db name = Except.ok [] := by
    simp only [getCodeVectors, hval, htbl]
    rfl
  constructor
  · simp only [VectorStore.search, hcv, Embeddings.search,
      generateCodeVector_ok modelEmbed code v rest hembed hlen]
    rfl
  · simp only [getAllFunctionBlocks, hval, htbl]
    rfl

/-- C6 witness: the amended theorem applied to the one-empty-table
database and the constant zero-vector capability. -/
theorem find_similar_empty_project_behavior_witness :
    (validateProjectName "demo" = Except.ok () ∧
     dbLookup demoDB "demo" = some [] ∧
     embedZero ["q"] = Except.ok (zeroVec384 :: []) ∧
     zeroVec384.length = VECTOR_SIZE) ∧
    (VectorStore.search embedZero demoDB "demo" "q" =
       Except.error (Err.panicked "called unwrap on a None value") ∧
     getAllFunctionBlocks demoDB "demo" = Except.ok []) :=
  ⟨⟨by decide, by decide, rfl, zeroVec384_length⟩,
   find_similar_empty_project_behavior embedZero demoDB "demo" "q" zeroVec384 []
     (by decide) (by decide) rfl (zeroVec384_length)⟩

/-- C7: `insert_blocks` runs all row INSERTs inside one transaction that
commits only after the last row, and a failure on any row drops the
transaction, rolling every pending write back: for every failure pattern,
database, project name and block sequence, the call either succeeds with
exactly all rows appended to the project's table, or returns an error with
the database unchanged. -/
theorem insertBlocks_atomic (fail : Nat → Option String) (db : DB)
    (name : String) (blocks : List EmbeddedBlock) :
    ((insertBlocks fail db name blocks).1 = Except.ok () ∧
     (insertBlocks fail db name blocks).2 =
       dbSet db name ((dbLookup db name).getD [] ++ blocks.map rowOfBlock)) ∨
    ((∃ e, (insertBlocks fail db name blocks).1 = Except.error e) ∧
     (insertBlocks fail db name blocks).2 = db) := by
  unfold insertBlocks
  cases hval : validateProjectName name with
  | error e => exact Or.inr ⟨⟨e, rfl⟩, rfl⟩
  | ok u =>
    cases u
    cases hlk : dbLookup db name with
    | none => exact Or.inr ⟨⟨_, rfl⟩, rfl⟩
    | some rows =>
      rcases runInserts_ok_or_error fail 0 blocks with hok | ⟨msg, herr⟩
      · rw [hok]
        exact Or.inl ⟨rfl, rfl⟩
      · rw [herr]
        exact Or.inr ⟨⟨_, rfl⟩, rfl⟩

/-- C8: for every non-empty stored point set and every query whose
embedding succeeds with a 384-entry vector, the search result's `nearest`
is the code of a stored point at minimum (squared, hence also plain)
Euclidean distance among all stored points, and `k_nearest` lists the
`min(k, number of stored points)` ranked points in ascending distance
order. -/
theorem search_returns_min_distance_and_ranked
    (modelEmbed : EmbedModel) (pts : List Vector) (code : String) (k : Nat)
    (v : List ℚ) (rest : List (List ℚ))
    (hne : pts ≠ [])
    (hembed : modelEmbed [code] = Except.ok (v :: rest))
    (hlen : v.length = VECTOR_SIZE) :
    ∃ r : NearestVectors, Embeddings.search modelEmbed pts code k = Except.ok r ∧
      (∃ p, p ∈ pts ∧ r.nearest = p.code ∧
        ∀ p2 ∈ pts, sqDist p.point v ≤ sqDist p2.point v) ∧
      r.k_nearest = (kNearestPoints pts v k).map Vector.code ∧
      r.k_nearest.length = min k pts.length ∧
      List.Sorted (distLe v) (kNearestPoints pts v k) := by
  obtain ⟨p, hnp, hpmem, hmin⟩ := nearestPoint_min pts v hne
  refine ⟨⟨p.code, (kNearestPoints pts v k).map Vector.code⟩,
    Embeddings.search_ok modelEmbed pts code k v rest p hembed hlen hnp,
    ⟨p, hpmem, rfl, hmin⟩, rfl, ?_, kNearestPoints_sorted pts v k⟩
  simp [kNearestPoints_length]

/-- C8 witness: the theorem applied to a two-point set at distances 1 and
0 from the all-zero query. -/
theorem search_returns_min_distance_and_ranked_witness :
    (twoPoints ≠ [] ∧ embedZero ["q"] = Except.ok (zeroVec384 :: []) ∧
     zeroVec384.length = VECTOR_SIZE) ∧
    (∃ r : NearestVectors, Embeddings.search embedZero twoPoints "q" 2 = Except.ok r ∧
      (∃ p, p ∈ twoPoints ∧ r.nearest = p.code ∧
        ∀ p2 ∈ twoPoints, sqDist p.point zeroVec384 ≤ sqDist p2.point zeroVec384) ∧
      r.k_nearest = (kNearestPoints twoPoints zeroVec384 2).map Vector.code ∧
      r.k_nearest.length = min 2 twoPoints.length ∧
      List.Sorted (distLe zeroVec384) (kNearestPoints twoPoints zeroVec384 2)) :=
  ⟨⟨by decide, rfl, zeroVec384_length⟩,
   search_returns_min_distance_and_ranked embedZero twoPoints "q" 2 zeroVec384 []
     (by decide) rfl (zeroVec384_length)⟩

/-- C9 counterexample: the claim says a returned vector of length ≠ 384
makes batch embedding fail with an `EmbeddingFailure` error.  When the
capability returns a length-1 vector, `generate_vector_set` panics on the
`try_into().unwrap()` conversion instead of returning a typed
`EmbeddingFailure`. -/
theorem generateVectorSet_wrong_dimension_panics :
    generateVectorSet embedShort ["a"] =
      Except.error (Err.panicked "try_into to fixed-size array failed") ∧
    (Err.panicked "try_into to fixed-size array failed").isEmbeddingFailure = false := by
  refine ⟨by decide, by decide⟩

/-- C9 amended: when the capability errors, batch embedding fails with
`EmbeddingFailure` and produces no partial results; when the capability
succeeds and every returned vector (among the first
`min(|output|, |texts|)`) has length 384, the result pairs `result[i]`
with `texts[i]` in order, with length `min(|output|, |texts|)` — equal to
`|texts|` when the capability returns one vector per text; a returned
vector of a different length makes the call panic rather than return a
typed error. -/
theorem generateVectorSet_spec (modelEmbed : EmbedModel) (texts : List String) :
    (∀ e, modelEmbed texts = Except.error e →
      generateVectorSet modelEmbed texts = Except.error (Err.embeddingFailure e)) ∧
    (∀ output, modelEmbed texts = Except.ok output →
      ((output.zip texts).all (fun p => p.1.length == VECTOR_SIZE)) = true →
      ∃ r, generateVectorSet modelEmbed texts = Except.ok r ∧
        r.map Vector.code = texts.take output.length ∧
        r.map Vector.point = output.take texts.length ∧
        r.length = min output.length texts.length) := by
  constructor
  · intro e he
    simp [generateVectorSet, he]
  · intro output ho hall
    refine ⟨(output.zip texts).map (fun p => ⟨p.1, p.2⟩),
      by simp [generateVectorSet, ho, hall], ?_, ?_, ?_⟩
    · rw [List.map_map]
      exact map_snd_zip_eq_take output texts
    · rw [List.map_map]
      exact map_fst_zip_eq_take output texts
    · simp [List.length_zip]

/-- C9 witness: the amended theorem applied to a failing capability on one
text and to a well-behaved capability on two texts. -/
theorem generateVectorSet_spec_witness :
    (embedFail ["a"] = Except.error "model error" ∧
     generateVectorSet embedFail ["a"] =
       Except.error (Err.embeddingFailure "model error")) ∧
    (embedZeroBatch ["a", "b"] = Except.ok [zeroVec384, zeroVec384] ∧
     (([zeroVec384, zeroVec384].zip ["a", "b"]).all
        (fun p => p.1.length == VECTOR_SIZE)) = true ∧
     ∃ r, generateVectorSet embedZeroBatch ["a", "b"] = Except.ok r ∧
       r.map Vector.code = ["a", "b"].take [zeroVec384, zeroVec384].length ∧
       r.map Vector.point = [zeroVec384, zeroVec384].take (["a", "b"] : List String).length ∧
       r.length = min [zeroVec384, zeroVec384].length (["a", "b"] : List String).length) :=
  ⟨⟨rfl, (generateVectorSet_spec embedFail ["a"]).1 "model error" rfl⟩,
   ⟨rfl, zeroVec384_batch_check,
    (generateVectorSet_spec embedZeroBatch ["a", "b"]).2 [zeroVec384, zeroVec384] rfl
      zeroVec384_batch_check⟩⟩

/-- C10: for every non-empty stored point set, `k ≥ 1`, and a query whose
embedding succeeds with a 384-entry vector, the separately computed
`nearest` field equals the first element of the `k_nearest` list. -/
theorem search_nearest_matches_head_of_k_nearest
    (modelEmbed : EmbedModel) (pts : List Vector) (code : String) (k : Nat)
    (v : List ℚ) (rest : List (List ℚ))
    (hne : pts ≠ []) (hk : 1 ≤ k)
    (hembed : modelEmbed [code] = Except.ok (v :: rest))
    (hlen : v.length = VECTOR_SIZE) :
    ∃ r : NearestVectors, Embeddings.search modelEmbed pts code k = Except.ok r ∧
      r.k_nearest.head? = some r.nearest := by
  obtain ⟨p, hnp, _, _⟩ := nearestPoint_min pts v hne
  refine ⟨⟨p.code, (kNearestPoints pts v k).map Vector.code⟩,
    Embeddings.search_ok modelEmbed pts code k v rest p hembed hlen hnp, ?_⟩
  have hk0 : k ≠ 0 := by omega
  have h1 : (kNearestPoints pts v k).head? = some p := by
    unfold kNearestPoints
    rw [List.head?_take]
    simp only [hk0, if_false]
    simpa [nearestPoint] using hnp
  simp [List.head?_map, h1]

/-- C10 witness: the theorem applied to the two-point set with `k = 1`. -/
theorem search_nearest_matches_head_of_k_nearest_witness :
    (twoPoints ≠ [] ∧ (1 : Nat) ≤ 1 ∧
     embedZero ["q"] = Except.ok (zeroVec384 :: []) ∧
     zeroVec384.length = VECTOR_SIZE) ∧
    (∃ r : NearestVectors, Embeddings.search embedZero twoPoints "q" 1 = Except.ok r ∧
      r.k_nearest.head? = some r.nearest) :=
  ⟨⟨by decide, le_refl 1, rfl, zeroVec384_length⟩,
   search_nearest_matches_head_of_k_nearest embedZero twoPoints "q" 1 zeroVec384 []
     (by decide) (le_refl 1) rfl (zeroVec384_length)⟩

end Blockoli
